import Mathlib

/-!
# Xpost: the library client and the interpreter header

A shallow embedding of `src/bin/xpost_client.c` (the example client of the
Xpost library) and of the data model declared in `src/bin/xpost_interpreter.h`.

* `XpostClient`: the client's `main`, as a function from the argument vector
  and the answers of the library to the sequence of library/stdio calls it
  makes and the way the process ends.
* `XpostItp`: the context and registry structures of the header, with the
  functions the header only declares (`bank`, `nextltab`, `nextgtab`, context
  registration) modelled from the specification.
* `XpostEval`: the evaluation loop behind `xpost_run`, modelled from the
  specification.
-/

namespace XpostClient

/-- Constants of `xpost.h` and `stdlib.h` used by the client.  The header
`xpost.h` is not part of the sources at hand, so the numeric values of its
enumerators are taken as parameters. -/
structure XpostH where
  XPOST_OUTPUT_MESSAGE_QUIET : Int
  XPOST_OUTPUT_MESSAGE_VERBOSE : Int
  XPOST_OUTPUT_MESSAGE_TRACING : Int
  XPOST_OUTPUT_FILENAME : Int
  XPOST_OUTPUT_BUFFEROUT : Int
  XPOST_SHOWPAGE_RETURN : Int
  XPOST_IGNORE_SIZE : Int
  XPOST_INPUT_STRING : Int
  deriving DecidableEq, Repr

/-- `EXIT_SUCCESS` of `stdlib.h`. -/
def EXIT_SUCCESS : Int := 0

/-- `EXIT_FAILURE` of `stdlib.h`. -/
def EXIT_FAILURE : Int := 1

/-- The `const void *ptr` handed to `xpost_create`: either the file name
string or the address of the local `buffer_type_object`. -/
inductive OutputTarget where
  | filename (s : String)
  | buffer_type_object_addr
  deriving DecidableEq, Repr

/-- One observable action of the client: a call into the library or into
stdio. -/
inductive Call where
  | xpost_init
  | xpost_create (device : String) (output_type : Int) (ptr : OutputTarget)
      (semantics : Int) (output_msg : Int) (set_size : Int) (width : Int) (height : Int)
  | xpost_run (input_type : Int) (input : String)
  | xpost_destroy
  | xpost_quit
  | xpost_version_get
  | printf (s : String)
  | fprintf_stderr (s : String)
  | fopen (path : String) (mode : String)
  | fprintf_fp (s : String)
  | dump_pixels (rows : Nat) (columns : Nat)
  | fclose
  deriving DecidableEq, Repr

/-- How the process ends: `return` from `main`, a call of `exit`, or a
statement whose behaviour is undefined (a NULL stream handed to `fprintf`, a
read through an invalid buffer pointer), after which nothing is known. -/
inductive Termination where
  | returned (code : Int)
  | exited (code : Int)
  | undefined
  deriving DecidableEq, Repr

/-- The answers of the library that the client's control flow depends on. -/
structure Env where
  /-- the three numbers stored by `xpost_version_get` -/
  maj : Int
  min : Int
  mic : Int
  /-- whether `xpost_create` returns a non-NULL context -/
  create_ok : Bool
  /-- the value returned by `xpost_run` -/
  run_ret : Int
  /-- whether `fopen("xpost_client_out.ppm", "w")` returns a non-NULL stream -/
  fopen_ok : Bool
  /-- whether `buffer_type_object` points to the 612 x 792 pixels the dump reads -/
  buffer_ok : Bool
  deriving DecidableEq, Repr

/-- The PostScript program of the client (`const char *prog`). -/
def prog : String :=
  "%%BoundingBox: 200 300 400 500\n" ++
  "0 0 1 setrgbcolor\n" ++
  "300 400 100 0 360 arc\n" ++
  "fill\n" ++
  "0 0 0 setrgbcolor\n" ++
  "290 390 moveto\n" ++
  "/Palatino-Roman 20 selectfont\n" ++
  "(Xpost) show\n" ++
  "showpage\n"

/-- `_xpost_client_license`. -/
def _xpost_client_license : List Call :=
  [Call.printf "BSD 3-clause\n"]

/-- `_xpost_client_version`. -/
def _xpost_client_version (env : Env) (filename : String) : List Call :=
  [Call.xpost_version_get,
   Call.printf (filename ++ " " ++ toString env.maj ++ "." ++ toString env.min ++ "."
     ++ toString env.mic ++ "\n")]

/-- `_xpost_client_usage`. -/
def _xpost_client_usage (filename : String) : List Call :=
  [Call.printf ("Usage: " ++ filename ++ " [options] [file.png]\n\n"),
   Call.printf "Postscript level 2 interpreter\n\n",
   Call.printf "Options:\n",
   Call.printf "  -q, --quiet    suppress interpreter messages (default)\n",
   Call.printf "  -v, --verbose  do not go quiet into that good night\n",
   Call.printf "  -t, --trace    add additional tracing messages, implies -v\n",
   Call.printf "  -L, --license  show program license\n",
   Call.printf "  -V, --version  show program version\n",
   Call.printf "  -h, --help     show this message\n"]

/-- The test `*argv[i] == '-'`: the first character of the argument is a dash
(the first character of the empty string is the terminating NUL). -/
def startsWithDash (a : String) : Bool :=
  match a.data with
  | c :: _ => c == '-'
  | [] => false

/-- Result of the option loop of `main`: either the loop ran to the end with
the final values of `output_msg` and `filename`, or `main` returned from
inside the loop. -/
inductive Scan where
  | finished (output_msg : Int) (filename : Option String)
  | returned (calls : List Call) (code : Int)
  deriving DecidableEq, Repr

/-- The loop `while (++i < argc)` of `main`, over the arguments
`argv[1..argc-1]` still to be read, with the current values of `output_msg`
and `filename`; `argv0` is `argv[0]`. -/
def scanArgs (K : XpostH) (env : Env) (argv0 : String) :
    List String → Int → Option String → Scan
  | [], output_msg, filename => Scan.finished output_msg filename
  | a :: rest, output_msg, filename =>
    if startsWithDash a then
      if a = "-h" ∨ a = "--help" then
        Scan.returned (_xpost_client_usage argv0) EXIT_SUCCESS
      else if a = "-V" ∨ a = "--version" then
        Scan.returned (_xpost_client_version env argv0) EXIT_SUCCESS
      else if a = "-L" ∨ a = "--license" then
        Scan.returned _xpost_client_license EXIT_SUCCESS
      else if a = "-q" ∨ a = "--quiet" then
        scanArgs K env argv0 rest K.XPOST_OUTPUT_MESSAGE_QUIET filename
      else if a = "-v" ∨ a = "--verbose" then
        scanArgs K env argv0 rest K.XPOST_OUTPUT_MESSAGE_VERBOSE filename
      else if a = "-t" ∨ a = "--trace" then
        scanArgs K env argv0 rest K.XPOST_OUTPUT_MESSAGE_TRACING filename
      else
        Scan.returned (Call.printf "unknown option\n" :: _xpost_client_usage argv0) EXIT_FAILURE
    else
      scanArgs K env argv0 rest output_msg (some a)

/-- The statements of `main` after `xpost_run` returned `ret` (lines 184-212):
the report on stdout; on a zero status the error message; on a non-zero status
without file name the PPM dump (lines 191-207: `fopen`, whose result is used
unchecked, the header, the loops over the 792 rows and 612 columns of the
buffer, `fclose`); then `xpost_destroy`, `xpost_quit` and `return 0`. -/
def afterRun (env : Env) (ret : Int) (filename : Option String) : List Call × Termination :=
  let report : Call :=
    Call.printf ("executed program. xpost_run returned " ++
      (if ret ≠ 0 then "yieldtocaller" else "zero") ++ "\n")
  if ret = 0 then
    ([report, Call.fprintf_stderr "error before showpage\n", Call.xpost_destroy,
      Call.xpost_quit], Termination.returned 0)
  else if filename = none then
    if env.fopen_ok then
      if env.buffer_ok then
        ([report, Call.fopen "xpost_client_out.ppm" "w",
          Call.fprintf_fp "P3\n612 792\n255\n", Call.dump_pixels 792 612, Call.fclose,
          Call.xpost_destroy, Call.xpost_quit], Termination.returned 0)
      else
        ([report, Call.fopen "xpost_client_out.ppm" "w",
          Call.fprintf_fp "P3\n612 792\n255\n"], Termination.undefined)
    else
      ([report, Call.fopen "xpost_client_out.ppm" "w"], Termination.undefined)
  else
    ([report, Call.xpost_destroy, Call.xpost_quit], Termination.returned 0)

/-- The statements of `main` from `xpost_init()` on (lines 159-212). -/
def runClient (K : XpostH) (env : Env) (output_msg : Int) (filename : Option String) :
    List Call × Termination :=
  let device : String := if filename.isSome then "png" else "raster:bgr"
  let output_type : Int :=
    if filename.isSome then K.XPOST_OUTPUT_FILENAME else K.XPOST_OUTPUT_BUFFEROUT
  let ptr : OutputTarget :=
    match filename with
    | some f => OutputTarget.filename f
    | none => OutputTarget.buffer_type_object_addr
  let create : Call :=
    Call.xpost_create device output_type ptr K.XPOST_SHOWPAGE_RETURN output_msg
      K.XPOST_IGNORE_SIZE 0 0
  if env.create_ok then
    ([Call.xpost_init, create,
      Call.printf "created interpreter context. executing program...\n",
      Call.xpost_run K.XPOST_INPUT_STRING prog] ++ (afterRun env env.run_ret filename).1,
     (afterRun env env.run_ret filename).2)
  else
    ([Call.xpost_init, create,
      Call.fprintf_stderr "unable to create interpreter context"],
     Termination.exited 0)

/-- The client's `main(argc, argv)`, with `argc = argv.length`: the calls it
makes, in order, and how the process ends. -/
def main (K : XpostH) (env : Env) (argv : List String) : List Call × Termination :=
  match scanArgs K env (argv.headD "") argv.tail K.XPOST_OUTPUT_MESSAGE_QUIET none with
  | Scan.returned calls code => (calls, Termination.returned code)
  | Scan.finished output_msg filename => runClient K env output_msg filename

/-! ### The wording of the usage text, for comparison with `main` -/

/-- The verbosity options listed by the usage text: `-q`, `--quiet`,
`-v`, `--verbose`, `-t`, `--trace`. -/
def isVerbosityOption (a : String) : Bool :=
  a = "-q" ∨ a = "--quiet" ∨ a = "-v" ∨ a = "--verbose" ∨ a = "-t" ∨ a = "--trace"

/-- The options after which the client only prints and stops with success:
`-h`, `--help`, `-V`, `--version`, `-L`, `--license`. -/
def isInfoOption (a : String) : Bool :=
  a = "-h" ∨ a = "--help" ∨ a = "-V" ∨ a = "--version" ∨ a = "-L" ∨ a = "--license"

/-- The message level named by a verbosity option. -/
def levelOfOption (K : XpostH) (a : String) : Int :=
  if a = "-q" ∨ a = "--quiet" then K.XPOST_OUTPUT_MESSAGE_QUIET
  else if a = "-v" ∨ a = "--verbose" then K.XPOST_OUTPUT_MESSAGE_VERBOSE
  else K.XPOST_OUTPUT_MESSAGE_TRACING

/-- The level of the last verbosity option among `args`, and `dflt` when there
is none. -/
def lastVerbosityOr (K : XpostH) (dflt : Int) (args : List String) : Int :=
  match (args.filter isVerbosityOption).getLast? with
  | none => dflt
  | some a => levelOfOption K a

/-- The verbosity described by the usage text: quiet by default, otherwise the
level of the last verbosity option. -/
def claimedVerbosity (K : XpostH) (args : List String) : Int :=
  lastVerbosityOr K K.XPOST_OUTPUT_MESSAGE_QUIET args

/-- The last argument among `args` that does not begin with a dash, and `dflt`
when there is none. -/
def lastFileNameOr (dflt : Option String) (args : List String) : Option String :=
  match (args.filter (fun a => !startsWithDash a)).getLast? with
  | none => dflt
  | some a => some a

/-- The last file-name argument, if any. -/
def claimedFileName (args : List String) : Option String :=
  lastFileNameOr none args

/-- The first argument that begins with a dash and is not a verbosity
option. -/
def firstDecider (args : List String) : Option String :=
  args.find? (fun a => startsWithDash a && !isVerbosityOption a)

/-- What `main` prints when it stops at the deciding option `a`. -/
def deciderCalls (env : Env) (argv0 : String) (a : String) : List Call :=
  if a = "-h" ∨ a = "--help" then _xpost_client_usage argv0
  else if a = "-V" ∨ a = "--version" then _xpost_client_version env argv0
  else if a = "-L" ∨ a = "--license" then _xpost_client_license
  else Call.printf "unknown option\n" :: _xpost_client_usage argv0

/-- The `xpost_create` call for a message level and an optional file name, as
the client's file comment and usage text describe it. -/
def createCall (K : XpostH) (output_msg : Int) (filename : Option String) : Call :=
  Call.xpost_create (if filename.isSome then "png" else "raster:bgr")
    (if filename.isSome then K.XPOST_OUTPUT_FILENAME else K.XPOST_OUTPUT_BUFFEROUT)
    (filename.elim OutputTarget.buffer_type_object_addr OutputTarget.filename)
    K.XPOST_SHOWPAGE_RETURN output_msg K.XPOST_IGNORE_SIZE 0 0

/-- The calls of `main` up to and including `xpost_run`, when `xpost_create`
succeeds. -/
def callsUpToRun (K : XpostH) (output_msg : Int) (filename : Option String) : List Call :=
  [Call.xpost_init, createCall K output_msg filename,
   Call.printf "created interpreter context. executing program...\n",
   Call.xpost_run K.XPOST_INPUT_STRING prog]

/-- The calls `xpost_create`, `xpost_run` and `xpost_destroy`, which need an
initialised library. -/
def Call.needsInit : Call → Bool
  | Call.xpost_create _ _ _ _ _ _ _ _ => true
  | Call.xpost_run _ _ => true
  | Call.xpost_destroy => true
  | _ => false

/-- The call is a call of `xpost_create`. -/
def Call.isCreate : Call → Bool
  | Call.xpost_create _ _ _ _ _ _ _ _ => true
  | _ => false

/-- No `xpost_create`, `xpost_run` or `xpost_destroy` is called before
`xpost_init`. -/
def initBefore : List Call → Bool
  | [] => true
  | c :: rest => if c = Call.xpost_init then true else !c.needsInit && initBefore rest

/-- Every `xpost_create`, `xpost_run` and `xpost_destroy` call is followed,
later in the sequence, by a call of `xpost_quit`. -/
def quitAfter : List Call → Bool
  | [] => true
  | c :: rest => (!c.needsInit || rest.contains Call.xpost_quit) && quitAfter rest

/-- A sample assignment of values to the constants of `xpost.h`, used to
evaluate `main` on concrete arguments. -/
def sampleH : XpostH :=
  { XPOST_OUTPUT_MESSAGE_QUIET := 0, XPOST_OUTPUT_MESSAGE_VERBOSE := 1,
    XPOST_OUTPUT_MESSAGE_TRACING := 2, XPOST_OUTPUT_FILENAME := 3,
    XPOST_OUTPUT_BUFFEROUT := 4, XPOST_SHOWPAGE_RETURN := 5, XPOST_IGNORE_SIZE := 6,
    XPOST_INPUT_STRING := 7 }

/-- A sample environment: version 0.9.0, `xpost_create` succeeds, `xpost_run`
returns 1, the PPM file can be opened and the buffer read. -/
def sampleEnv : Env :=
  { maj := 0, min := 9, mic := 0, create_ok := true, run_ret := 1, fopen_ok := true,
    buffer_ok := true }

/-- The bracket discipline on the calls of one process: nothing that needs the
library precedes `xpost_init`, and when `xpost_create` is called at all,
`xpost_quit` is called after the last create, run or destroy call. -/
def bracketed (calls : List Call) : Bool :=
  initBefore calls && (!calls.any Call.isCreate || quitAfter calls)

end XpostClient

namespace XpostItp

/-- `#define MAXCONTEXT 10`. -/
abbrev MAXCONTEXT : Nat := 10

/-- `#define MAXMFILE 10`. -/
abbrev MAXMFILE : Nat := 10

/-- `enum { LOCAL, GLOBAL }`, the values of `vmmode`. -/
inductive VmMode where
  | LOCAL
  | GLOBAL
  deriving DecidableEq, Repr

/-- A value of type `mfile *` as held by a context: NULL, or the address of a
slot of one of the two bank tables `gtab` and `ltab` of the registry. -/
inductive MfilePtr where
  | null
  | gtab (i : Fin MAXMFILE)
  | ltab (i : Fin MAXMFILE)
  deriving DecidableEq, Repr

/-- Modelled from the spec: the type `Xpost_Object` is declared outside the
header.  A tagged object is a fixed-size value carrying a type tag, a VM-mode
bit (local or global) and an immediate scalar or a reference into a bank. -/
structure Xpost_Object where
  type : Nat
  vm : VmMode
  payload : Nat
  deriving DecidableEq, Repr

/-- `struct opcuts`. -/
structure opcuts where
  contfilenameforall : Int
  cvx : Int
  opfor : Int
  forall_ : Int
  load : Int
  loop : Int
  repeat_ : Int
  token : Int
  deriving DecidableEq, Repr

/-- The `context` structure of the header. -/
structure context where
  id : Nat
  gl : MfilePtr
  lo : MfilePtr
  os : Nat
  es : Nat
  ds : Nat
  hold : Nat
  rand_next : Nat
  vmmode : VmMode
  state : Nat
  quit : Nat
  currentobject : Xpost_Object
  opcuts : opcuts
  deriving DecidableEq, Repr

/-- Modelled from the spec: the type `mfile` is declared outside the header.
A memory bank is a block of addressable storage; a slot of a bank table is
either free or reserved by `nextltab` / `nextgtab`. -/
structure mfile where
  inuse : Bool
  storage : List Nat
  deriving DecidableEq, Repr

/-- The registry structure `itp` of the header: `MAXCONTEXT` contexts, the
context-id counter, `MAXMFILE` global and `MAXMFILE` local banks. -/
structure itp where
  ctab : Fin MAXCONTEXT → context
  cid : Nat
  gtab : Fin MAXMFILE → mfile
  ltab : Fin MAXMFILE → mfile

/-- The failure kinds of the specification's error taxonomy. -/
inductive Error where
  | AllocationExhausted
  | UndefinedName
  | TypeMismatch
  | StackUnderflow
  | InvalidAccess
  | ConsistencyFault
  deriving DecidableEq, Repr

/-- Modelled from the spec: the body of `bank` is not part of the header, which
only declares `mfile *bank(context *ctx, Xpost_Object o)`.  The resolver is a
function of the object's VM-mode tag and the context's `lo` and `gl` pointers:
the local bank for a local object, the global bank for a global one. -/
def bank (ctx : context) (o : Xpost_Object) : MfilePtr :=
  match o.vm with
  | VmMode.LOCAL => ctx.lo
  | VmMode.GLOBAL => ctx.gl

/-- A bank slot as initialised by `nextltab` / `nextgtab`: reserved and empty. -/
def freshMfile : mfile := { inuse := true, storage := [] }

/-- The first index of a table of `n` slots whose slot is not in use. -/
def findFree (n : Nat) (used : Fin n → Bool) : Option (Fin n) :=
  (List.finRange n).find? (fun i => !used i)

/-- Modelled from the spec: `nextltab` is only declared in the header.  It
reserves and initialises the next free slot of `ltab` and fails with
`AllocationExhausted`, leaving the registry as it was, when every slot is in
use.  The result pairs the outcome with the registry after the call. -/
def nextltab (r : itp) : Except Error MfilePtr × itp :=
  match findFree MAXMFILE (fun i => (r.ltab i).inuse) with
  | none => (Except.error Error.AllocationExhausted, r)
  | some i => (Except.ok (MfilePtr.ltab i), { r with ltab := Function.update r.ltab i freshMfile })

/-- Modelled from the spec: `nextgtab` is only declared in the header.  It
reserves and initialises the next free slot of `gtab` and fails with
`AllocationExhausted`, leaving the registry as it was, when every slot is in
use. -/
def nextgtab (r : itp) : Except Error MfilePtr × itp :=
  match findFree MAXMFILE (fun i => (r.gtab i).inuse) with
  | none => (Except.error Error.AllocationExhausted, r)
  | some i => (Except.ok (MfilePtr.gtab i), { r with gtab := Function.update r.gtab i freshMfile })

/-- A slot of `ctab` holds a live context when the context is bound to a local
bank: creation binds a context to a freshly reserved local bank and
`exitcontext` detaches it. -/
def context.live (c : context) : Bool :=
  c.lo != MfilePtr.null

/-- A context is bound to its banks when `lo` is the address of a slot of
`ltab` and `gl` the address of a slot of `gtab`: this is how the registry
leaves every context it creates, and what a free slot of `ctab` is not. -/
def context.bound (c : context) : Bool :=
  match c.lo, c.gl with
  | MfilePtr.ltab _, MfilePtr.gtab _ => true
  | _, _ => false

/-- The active global bank: the first slot of `gtab` that is in use. -/
def activeGlobal (r : itp) : Option (Fin MAXMFILE) :=
  (List.finRange MAXMFILE).find? (fun i => (r.gtab i).inuse)

/-- Modelled from the spec: `initcontext` is only declared in the header.  A
context bound to the given banks and id is initialised with its VM mode set to
local; the four stack handles, the seed, the run state, the quit flag, the
current object and the operator cache start from zero. -/
def initcontext (id : Nat) (lo gl : MfilePtr) : context :=
  { id := id, gl := gl, lo := lo, os := 0, es := 0, ds := 0, hold := 0, rand_next := 0,
    vmmode := VmMode.LOCAL, state := 0, quit := 0,
    currentobject := { type := 0, vm := VmMode.LOCAL, payload := 0 },
    opcuts := { contfilenameforall := 0, cvx := 0, opfor := 0, forall_ := 0, load := 0,
                loop := 0, repeat_ := 0, token := 0 } }

/-- Modelled from the spec: the registration of a new context (`initctxid`,
`nextltab`, `nextgtab`, `initcontext`, of which the header has only the
declarations).  The context gets a free slot of `ctab`, a fresh id, a freshly
reserved local bank and the active global bank (a freshly reserved one when no
global bank is active).  When no slot of `ctab` is free, or a bank table is
exhausted, the request fails with `AllocationExhausted` and the registry is
left as it was. -/
def createContext (r : itp) : Except Error (Fin MAXCONTEXT) × itp :=
  match findFree MAXCONTEXT (fun i => (r.ctab i).live) with
  | none => (Except.error Error.AllocationExhausted, r)
  | some slot =>
    match nextltab r with
    | (Except.error e, _) => (Except.error e, r)
    | (Except.ok lo, r1) =>
      match activeGlobal r1 with
      | some g =>
        (Except.ok slot,
         { r1 with ctab := Function.update r1.ctab slot (initcontext r1.cid lo (MfilePtr.gtab g)),
                   cid := r1.cid + 1 })
      | none =>
        match nextgtab r1 with
        | (Except.error e, _) => (Except.error e, r)
        | (Except.ok gl, r2) =>
          (Except.ok slot,
           { r2 with ctab := Function.update r2.ctab slot (initcontext r2.cid lo gl),
                     cid := r2.cid + 1 })

/-- Modelled from the spec: `inititp` is only declared in the header.  A new
registry has no live context, no bank in use and the id counter at zero. -/
def inititp : itp :=
  { ctab := fun _ => initcontext 0 MfilePtr.null MfilePtr.null,
    cid := 0,
    gtab := fun _ => { inuse := false, storage := [] },
    ltab := fun _ => { inuse := false, storage := [] } }

/-- The registry after `n` successful context creations, starting from `r`
(a failed creation leaves the registry as it was). -/
def createMany : Nat → itp → itp
  | 0, r => r
  | n + 1, r => createMany n (createContext r).2

/-- Every live context of the registry is bound to its banks. -/
def allBound (r : itp) : Prop :=
  ∀ i : Fin MAXCONTEXT, (r.ctab i).live = true → (r.ctab i).bound = true

/-- The registry after `n` calls of `nextgtab`, starting from `r`. -/
def reserveGlobals : Nat → itp → itp
  | 0, r => r
  | n + 1, r => reserveGlobals n (nextgtab r).2

/-- A registry with every table full: ten contexts created from the empty
registry, each with its own local bank, and all global banks reserved. -/
def fullRegistry : itp :=
  reserveGlobals 9 (createMany 10 inititp)

end XpostItp

namespace XpostEval

open XpostItp (Error)

/-- Modelled from the spec: the operators are implemented outside the header.
The evaluation loop tells apart the showpage-class operator, which pushes the
yield marker, the explicit quit request, and every other operator, whose
native behaviour is a parameter of the loop. -/
inductive Operator where
  | showpage
  | quit
  | other (id : Nat)
  deriving DecidableEq, Repr

/-- The values that execute as "push self": a number, a string, a literal
name, a mark. -/
inductive Literal where
  | number (n : Int)
  | string (s : String)
  | name (n : String)
  | mark
  deriving DecidableEq, Repr

/-- Modelled from the spec: the objects the evaluation loop dispatches on, by
tag: a literal (number, string, literal name or mark), an executable name, a
resolved operator, an executable array, and the distinguished yield marker. -/
inductive Object where
  | literal (v : Literal)
  | name (n : String)
  | operator (op : Operator)
  | proc (body : List Object)
  | yieldmarker

/-- The states of the evaluation loop. -/
inductive State where
  | RUNNING
  | SUSPENDED_AT_YIELD
  | ERROR
  | QUIT
  deriving DecidableEq, Repr

/-- The status with which a `run` call hands control back to the caller. -/
inductive RunStatus where
  | Exhausted
  | YieldedToCaller
  | Failed
  | Quit
  deriving DecidableEq, Repr

/-- Modelled from the spec: the part of a context the evaluation loop works
on.  The four stacks are given with their contents, the top of a stack being
the head of the list; `ds` is the dictionary stack, innermost scope first. -/
structure Context where
  os : List Object
  es : List Object
  ds : List (List (String × Object))
  hold : List Object
  state : State
  quit : Bool
  currentobject : Option Object
  errorobject : Option Error

/-- A context as `initcontext` leaves it: the four stacks empty, the quit flag
clear. -/
def initcontext : Context :=
  { os := [], es := [], ds := [], hold := [], state := State.RUNNING, quit := false,
    currentobject := none, errorobject := none }

/-- Resolution of a name through the dictionary stack, innermost scope
first. -/
def resolve : List (List (String × Object)) → String → Option Object
  | [], _ => none
  | d :: rest, n =>
    match d.lookup n with
    | some v => some v
    | none => resolve rest n

/-- The native behaviour of every operator other than showpage and quit. -/
abbrev Native := Nat → Context → Except Error Context

/-- Invocation of an operator in a context created with the showpage-return
policy: showpage pushes the yield marker onto the execution stack, quit sets
the quit flag, any other operator does what `native` says. -/
def invoke (native : Native) (op : Operator) (c : Context) : Except Error Context :=
  match op with
  | Operator.showpage => Except.ok { c with es := Object.yieldmarker :: c.es }
  | Operator.quit => Except.ok { c with quit := true }
  | Operator.other id => native id c

/-- Outcome of one iteration of the loop: go on with the next iteration, or
hand control back to the caller. -/
inductive Step where
  | next (c : Context)
  | stop (status : RunStatus) (c : Context)

/-- Invocation of an operator by the loop: an error of the operator is caught
by the loop, which records the error object and moves to `ERROR`. -/
def execute (native : Native) (op : Operator) (c : Context) : Step :=
  match invoke native op c with
  | Except.ok c' => Step.next c'
  | Except.error e => Step.stop RunStatus.Failed { c with state := State.ERROR, errorobject := some e }

/-- Modelled from the spec: one iteration of the evaluation loop.  The quit
flag is checked first; an empty execution stack ends the run; otherwise the
top of the execution stack is popped into the current object and dispatched
by tag. -/
def step (native : Native) (c : Context) : Step :=
  if c.quit then Step.stop RunStatus.Quit { c with state := State.QUIT }
  else
    match c.es with
    | [] => Step.stop RunStatus.Exhausted c
    | o :: rest =>
      let c1 : Context := { c with es := rest, currentobject := some o }
      match o with
      | Object.literal v => Step.next { c1 with os := Object.literal v :: c1.os }
      | Object.name n =>
        match resolve c1.ds n with
        | none =>
          Step.stop RunStatus.Failed
            { c1 with state := State.ERROR, errorobject := some Error.UndefinedName }
        | some (Object.operator op) => execute native op c1
        | some (Object.literal v) => Step.next { c1 with os := Object.literal v :: c1.os }
        | some v => Step.next { c1 with es := v :: c1.es }
      | Object.operator op => execute native op c1
      | Object.proc body => Step.next { c1 with es := body ++ c1.es }
      | Object.yieldmarker =>
        Step.stop RunStatus.YieldedToCaller { c1 with state := State.SUSPENDED_AT_YIELD }

/-- The evaluation loop, with a bound on the number of iterations; `none` when
the bound is reached before the loop hands control back. -/
def loop (native : Native) : Nat → Context → Option (RunStatus × Context)
  | 0, _ => none
  | fuel + 1, c =>
    match step native c with
    | Step.next c' => loop native fuel c'
    | Step.stop status c' => some (status, c')

/-- Modelled from the spec: `run(context, input)`.  The objects of the
input are placed on the execution stack, the first object on top, and the
loop is entered; a call with empty input resumes a suspended context. -/
def run (native : Native) (fuel : Nat) (c : Context) (input : List Object) :
    Option (RunStatus × Context) :=
  loop native fuel { c with es := input ++ c.es, state := State.RUNNING }

/-- The context after `k` iterations of the loop, when none of them hands
control back to the caller. -/
def steps (native : Native) : Nat → Context → Option Context
  | 0, c => some c
  | k + 1, c =>
    match step native c with
    | Step.next c' => steps native k c'
    | Step.stop _ _ => none

/-- Modelled from the spec: the status of a run as the int `xpost_run` hands to
the client.  The interface gives `run` the two results `Exhausted` and
`YieldedToCaller`; the client prints a non-zero status as "yieldtocaller", a
zero status as "zero", and reads a zero status as an error before showpage. -/
def statusCode : RunStatus → Int
  | RunStatus.YieldedToCaller => 1
  | _ => 0

/-- A native behaviour under which every other operator succeeds and changes
nothing. -/
def idleNative : Native := fun _ c => Except.ok c

/-- A native behaviour under which every other operator succeeds and empties
the execution stack. -/
def clearingNative : Native := fun _ c => Except.ok { c with es := [] }

/-- The showpage operator as an object of a program. -/
def showpage : Object := Object.operator Operator.showpage

/-- The operator `id` does not take part in the control flow: in every context
it succeeds and leaves the execution stack, the dictionary stack and the quit
flag as they were. -/
def Inert (native : Native) (id : Nat) : Prop :=
  ∀ c : Context, ∃ c', native id c = Except.ok c' ∧ c'.es = c.es ∧ c'.ds = c.ds ∧
    c'.quit = c.quit

/-- An object that takes one iteration of the loop and leaves the rest of the
execution stack alone: a literal, an operator that does not take part in the
control flow, or an executable name bound to one of these in the dictionary
stack `ds`. -/
def Plain (native : Native) (ds : List (List (String × Object))) : Object → Prop
  | Object.literal _ => True
  | Object.operator (Operator.other id) => Inert native id
  | Object.name n =>
    match resolve ds n with
    | some (Object.literal _) => True
    | some (Object.operator (Operator.other id)) => Inert native id
    | _ => False
  | _ => False

/-- The object is showpage: the showpage operator itself, or an executable
name bound to it in the dictionary stack `ds`. -/
def IsShowpage (ds : List (List (String × Object))) : Object → Prop
  | Object.operator Operator.showpage => True
  | Object.name n => resolve ds n = some (Object.operator Operator.showpage)
  | _ => False

/-- A dictionary binding the operator names of the client's program: the six
graphics operators to operators 0 to 5, and `showpage` to the showpage
operator. -/
def systemdict : List (String × Object) :=
  [("setrgbcolor", Object.operator (Operator.other 0)),
   ("arc", Object.operator (Operator.other 1)),
   ("fill", Object.operator (Operator.other 2)),
   ("moveto", Object.operator (Operator.other 3)),
   ("selectfont", Object.operator (Operator.other 4)),
   ("show", Object.operator (Operator.other 5)),
   ("showpage", Object.operator Operator.showpage)]

/-- The objects of the client's program before its last token, in order; the
tokenizer is outside the loop, and the comment line of the program yields no
object:
`0 0 1 setrgbcolor 300 400 100 0 360 arc fill 0 0 0 setrgbcolor 290 390 moveto`
`/Palatino-Roman 20 selectfont (Xpost) show`. -/
def clientProgramBody : List Object :=
  [Object.literal (Literal.number 0), Object.literal (Literal.number 0),
   Object.literal (Literal.number 1), Object.name "setrgbcolor",
   Object.literal (Literal.number 300), Object.literal (Literal.number 400),
   Object.literal (Literal.number 100), Object.literal (Literal.number 0),
   Object.literal (Literal.number 360), Object.name "arc",
   Object.name "fill",
   Object.literal (Literal.number 0), Object.literal (Literal.number 0),
   Object.literal (Literal.number 0), Object.name "setrgbcolor",
   Object.literal (Literal.number 290), Object.literal (Literal.number 390),
   Object.name "moveto",
   Object.literal (Literal.name "Palatino-Roman"), Object.literal (Literal.number 20),
   Object.name "selectfont",
   Object.literal (Literal.string "Xpost"), Object.name "show"]

/-- The objects of the client's program `prog`: its body, then the executable
name `showpage`, its last token. -/
def clientProgram : List Object :=
  clientProgramBody ++ [Object.name "showpage"]

/-- A fresh context whose dictionary stack holds `systemdict`. -/
def clientContext : Context :=
  { initcontext with ds := [systemdict] }

end XpostEval

namespace XpostClient

theorem lastVerbosityOr_nil (K : XpostH) (d : Int) : lastVerbosityOr K d [] = d := rfl

theorem lastFileNameOr_nil (d : Option String) : lastFileNameOr d [] = d := rfl

theorem getLast?_cons_eq {α : Type} (a : α) (l : List α) :
    (a :: l).getLast? = some (l.getLast?.getD a) := by
  cases l with
  | nil => rfl
  | cons b t =>
    rw [List.getLast?_cons_cons]
    cases h : (b :: t).getLast? with
    | none => simp at h
    | some x => rfl

theorem lastVerbosityOr_cons_verb (K : XpostH) (d : Int) (a : String) (rest : List String)
    (h : isVerbosityOption a = true) :
    lastVerbosityOr K d (a :: rest) = lastVerbosityOr K (levelOfOption K a) rest := by
  unfold lastVerbosityOr
  rw [List.filter_cons_of_pos h, getLast?_cons_eq]
  cases (List.filter isVerbosityOption rest).getLast? <;> rfl

theorem lastVerbosityOr_cons_other (K : XpostH) (d : Int) (a : String) (rest : List String)
    (h : isVerbosityOption a = false) :
    lastVerbosityOr K d (a :: rest) = lastVerbosityOr K d rest := by
  unfold lastVerbosityOr
  rw [List.filter_cons_of_neg (by simp [h])]

theorem lastFileNameOr_cons_file (d : Option String) (a : String) (rest : List String)
    (h : startsWithDash a = false) :
    lastFileNameOr d (a :: rest) = lastFileNameOr (some a) rest := by
  unfold lastFileNameOr
  rw [List.filter_cons_of_pos (by simp [h]), getLast?_cons_eq]
  cases (List.filter (fun a => !startsWithDash a) rest).getLast? <;> rfl

theorem lastFileNameOr_cons_dash (d : Option String) (a : String) (rest : List String)
    (h : startsWithDash a = true) :
    lastFileNameOr d (a :: rest) = lastFileNameOr d rest := by
  unfold lastFileNameOr
  rw [List.filter_cons_of_neg (by simp [h])]

theorem startsWithDash_of_verbosity {a : String} (h : isVerbosityOption a = true) :
    startsWithDash a = true := by
  simp only [isVerbosityOption, decide_eq_true_eq] at h
  rcases h with h | h | h | h | h | h <;> subst h <;> rfl

/-- The option loop of `main` in closed form: it returns at the first deciding
argument, and otherwise ends with the level of the last verbosity option and
the last file name. -/
theorem scanArgs_eq (K : XpostH) (env : Env) (argv0 : String) :
    ∀ (args : List String) (msg : Int) (fn : Option String),
      scanArgs K env argv0 args msg fn =
        match firstDecider args with
        | some a => Scan.returned (deciderCalls env argv0 a)
            (if isInfoOption a then EXIT_SUCCESS else EXIT_FAILURE)
        | none => Scan.finished (lastVerbosityOr K msg args) (lastFileNameOr fn args) := by
  intro args
  induction args with
  | nil => intro msg fn; rfl
  | cons a rest ih =>
    intro msg fn
    by_cases hd : startsWithDash a = true
    · by_cases hv : isVerbosityOption a = true
      · have hfd : firstDecider (a :: rest) = firstDecider rest := by
          simp [firstDecider, List.find?_cons, hd, hv]
        rw [hfd, lastVerbosityOr_cons_verb K msg a rest hv, lastFileNameOr_cons_dash fn a rest hd,
          ← ih]
        simp only [isVerbosityOption, decide_eq_true_eq] at hv
        rcases hv with h | h | h | h | h | h <;> subst h <;>
          simp [scanArgs, startsWithDash, levelOfOption]
      · have hv' : isVerbosityOption a = false := by simpa using hv
        have hfd : firstDecider (a :: rest) = some a := by
          simp [firstDecider, List.find?_cons, hd, hv']
        rw [hfd]
        simp only [isVerbosityOption, decide_eq_false_iff_not, not_or] at hv'
        obtain ⟨h1, h2, h3, h4, h5, h6⟩ := hv'
        simp only [scanArgs, hd, if_true, h1, h2, h3, h4, h5, h6, or_self, if_false, deciderCalls,
          isInfoOption]
        by_cases e1 : a = "-h" ∨ a = "--help"
        · rcases e1 with e | e <;> subst e <;> simp
        · by_cases e2 : a = "-V" ∨ a = "--version"
          · rcases e2 with e | e <;> subst e <;> simp
          · by_cases e3 : a = "-L" ∨ a = "--license"
            · rcases e3 with e | e <;> subst e <;> simp
            · have e1' := not_or.mp e1
              have e2' := not_or.mp e2
              have e3' := not_or.mp e3
              simp [e1'.1, e1'.2, e2'.1, e2'.2, e3'.1, e3'.2]
    · have hd' : startsWithDash a = false := by simpa using hd
      have hv : isVerbosityOption a = false := by
        cases h : isVerbosityOption a with
        | false => rfl
        | true => rw [startsWithDash_of_verbosity h] at hd'; cases hd'
      have hfd : firstDecider (a :: rest) = firstDecider rest := by
        simp [firstDecider, List.find?_cons, hd']
      rw [hfd, lastVerbosityOr_cons_other K msg a rest hv, lastFileNameOr_cons_file fn a rest hd',
        ← ih]
      simp [scanArgs, hd']


theorem deciderCalls_mem (env : Env) (argv0 a : String) (c : Call)
    (hc : c ∈ deciderCalls env argv0 a) :
    c = Call.xpost_version_get ∨ ∃ s, c = Call.printf s := by
  unfold deciderCalls at hc
  split_ifs at hc <;>
    simp [_xpost_client_usage, _xpost_client_version, _xpost_client_license] at hc <;>
    aesop

/-- The calls and exit of `main` in closed form. -/
theorem main_eq (K : XpostH) (env : Env) (argv : List String) :
    main K env argv =
      match firstDecider argv.tail with
      | some a => (deciderCalls env (argv.headD "") a,
          Termination.returned (if isInfoOption a then EXIT_SUCCESS else EXIT_FAILURE))
      | none => runClient K env (claimedVerbosity K argv.tail) (claimedFileName argv.tail) := by
  unfold main
  rw [scanArgs_eq]
  cases firstDecider argv.tail <;> rfl

/-- The calls after `xpost_run`, case by case. -/
theorem afterRun_cases (env : Env) (ret : Int) (fn : Option String) :
    (ret = 0 →
      afterRun env ret fn =
        ([Call.printf "executed program. xpost_run returned zero\n",
          Call.fprintf_stderr "error before showpage\n", Call.xpost_destroy, Call.xpost_quit],
         Termination.returned 0)) ∧
    (ret ≠ 0 → fn ≠ none →
      afterRun env ret fn =
        ([Call.printf "executed program. xpost_run returned yieldtocaller\n",
          Call.xpost_destroy, Call.xpost_quit], Termination.returned 0)) ∧
    (ret ≠ 0 → fn = none → env.fopen_ok = true → env.buffer_ok = true →
      afterRun env ret fn =
        ([Call.printf "executed program. xpost_run returned yieldtocaller\n",
          Call.fopen "xpost_client_out.ppm" "w", Call.fprintf_fp "P3\n612 792\n255\n",
          Call.dump_pixels 792 612, Call.fclose, Call.xpost_destroy, Call.xpost_quit],
         Termination.returned 0)) ∧
    (ret ≠ 0 → fn = none → env.fopen_ok = true → env.buffer_ok = false →
      afterRun env ret fn =
        ([Call.printf "executed program. xpost_run returned yieldtocaller\n",
          Call.fopen "xpost_client_out.ppm" "w", Call.fprintf_fp "P3\n612 792\n255\n"],
         Termination.undefined)) ∧
    (ret ≠ 0 → fn = none → env.fopen_ok = false →
      afterRun env ret fn =
        ([Call.printf "executed program. xpost_run returned yieldtocaller\n",
          Call.fopen "xpost_client_out.ppm" "w"], Termination.undefined)) := by
  refine ⟨?_, ?_, ?_, ?_, ?_⟩
  · intro h; subst h; rfl
  · intro h1 h2; simp [afterRun, h1, h2]
  · intro h1 h2 h3 h4; simp [afterRun, h1, h2, h3, h4]
  · intro h1 h2 h3 h4; simp [afterRun, h1, h2, h3, h4]
  · intro h1 h2 h3; simp [afterRun, h1, h2, h3]

theorem afterRun_mem (env : Env) (r : Int) (fn : Option String) (c : Call)
    (hc : c ∈ (afterRun env r fn).1) :
    c = Call.xpost_destroy ∨ c = Call.xpost_quit ∨ (c.needsInit = false ∧ c ≠ Call.xpost_quit ∧
      c ≠ Call.xpost_init) := by
  obtain ⟨k0, k1, k2, k3, k4⟩ := afterRun_cases env r fn
  have key : ∀ l : List Call, c ∈ l →
      (∀ x ∈ l, x = Call.xpost_destroy ∨ x = Call.xpost_quit ∨
        (x.needsInit = false ∧ x ≠ Call.xpost_quit ∧ x ≠ Call.xpost_init)) →
      c = Call.xpost_destroy ∨ c = Call.xpost_quit ∨ (c.needsInit = false ∧ c ≠ Call.xpost_quit ∧
        c ≠ Call.xpost_init) := fun l hl h => h c hl
  by_cases h0 : r = 0
  · rw [k0 h0] at hc
    exact key _ hc (by decide)
  · by_cases hf : fn = none
    · cases hfo : env.fopen_ok with
      | true =>
        cases hb : env.buffer_ok with
        | true =>
          rw [k2 h0 hf hfo hb] at hc
          exact key _ hc (by decide)
        | false =>
          rw [k3 h0 hf hfo hb] at hc
          exact key _ hc (by decide)
      | false =>
        rw [k4 h0 hf hfo] at hc
        exact key _ hc (by decide)
    · rw [k1 h0 hf] at hc
      exact key _ hc (by decide)

theorem runClient_calls (K : XpostH) (env : Env) (msg : Int) (fn : Option String) :
    (runClient K env msg fn).1 =
      Call.xpost_init :: createCall K msg fn ::
      (if env.create_ok then
        Call.printf "created interpreter context. executing program...\n" ::
        Call.xpost_run K.XPOST_INPUT_STRING prog :: (afterRun env env.run_ret fn).1
       else [Call.fprintf_stderr "unable to create interpreter context"]) := by
  unfold runClient createCall
  cases env.create_ok <;> cases fn <;> rfl

theorem runClient_of_create_ok (K : XpostH) (env : Env) (msg : Int) (fn : Option String)
    (hok : env.create_ok = true) :
    runClient K env msg fn =
      (callsUpToRun K msg fn ++ (afterRun env env.run_ret fn).1,
       (afterRun env env.run_ret fn).2) := by
  unfold runClient callsUpToRun createCall
  rw [hok]
  cases fn <;> rfl

theorem runClient_create_mem (K : XpostH) (env : Env) (msg : Int) (fn : Option String)
    (d : String) (ot : Int) (p : OutputTarget) (sp m sz w h : Int)
    (hc : Call.xpost_create d ot p sp m sz w h ∈ (runClient K env msg fn).1) :
    d = (if fn.isSome then "png" else "raster:bgr") ∧
    ot = (if fn.isSome then K.XPOST_OUTPUT_FILENAME else K.XPOST_OUTPUT_BUFFEROUT) ∧
    p = fn.elim OutputTarget.buffer_type_object_addr OutputTarget.filename ∧
    sp = K.XPOST_SHOWPAGE_RETURN ∧ m = msg ∧ sz = K.XPOST_IGNORE_SIZE ∧ w = 0 ∧ h = 0 := by
  rw [runClient_calls] at hc
  rcases List.mem_cons.mp hc with hc | hc
  · cases hc
  rcases List.mem_cons.mp hc with hc | hc
  · unfold createCall at hc
    injection hc with h1 h2 h3 h4 h5 h6 h7 h8
    exact ⟨h1, h2, h3, h4, h5, h6, h7, h8⟩
  exfalso
  cases hb : env.create_ok with
  | false =>
    rw [hb] at hc
    simp only [Bool.false_eq_true, if_false, List.mem_singleton] at hc
    cases hc
  | true =>
    rw [hb] at hc
    simp only [if_true] at hc
    rcases List.mem_cons.mp hc with hc | hc
    · cases hc
    rcases List.mem_cons.mp hc with hc | hc
    · cases hc
    rcases afterRun_mem _ _ _ _ hc with h1 | h1 | h1
    · cases h1
    · cases h1
    · exact absurd h1.1 (by simp [Call.needsInit])

theorem main_create_mem (K : XpostH) (env : Env) (argv : List String)
    (d : String) (ot : Int) (p : OutputTarget) (sp m sz w h : Int)
    (hc : Call.xpost_create d ot p sp m sz w h ∈ (main K env argv).1) :
    firstDecider argv.tail = none ∧
    d = (if (claimedFileName argv.tail).isSome then "png" else "raster:bgr") ∧
    ot = (if (claimedFileName argv.tail).isSome then K.XPOST_OUTPUT_FILENAME
          else K.XPOST_OUTPUT_BUFFEROUT) ∧
    p = (claimedFileName argv.tail).elim OutputTarget.buffer_type_object_addr
          OutputTarget.filename ∧
    sp = K.XPOST_SHOWPAGE_RETURN ∧ m = claimedVerbosity K argv.tail ∧
    sz = K.XPOST_IGNORE_SIZE ∧ w = 0 ∧ h = 0 := by
  rw [main_eq] at hc
  cases hfd : firstDecider argv.tail with
  | some a =>
    rw [hfd] at hc
    rcases deciderCalls_mem _ _ _ _ hc with h1 | ⟨s, h1⟩ <;> cases h1
  | none =>
    rw [hfd] at hc
    exact ⟨rfl, runClient_create_mem K env _ _ d ot p sp m sz w h hc⟩

/-- Whenever the option loop runs to its end, `main` calls `xpost_init` and
then `xpost_create`. -/
theorem main_reaches_create (K : XpostH) (env : Env) (argv : List String)
    (hfd : firstDecider argv.tail = none) :
    createCall K (claimedVerbosity K argv.tail) (claimedFileName argv.tail) ∈
      (main K env argv).1 := by
  rw [main_eq, hfd]
  simp only
  rw [runClient_calls]
  exact List.mem_cons_of_mem _ (List.mem_cons_self _ _)

theorem quitAfter_append (l1 l2 : List Call) (h2 : quitAfter l2 = true)
    (hq : Call.xpost_quit ∈ l2) : quitAfter (l1 ++ l2) = true := by
  induction l1 with
  | nil => exact h2
  | cons c t ih => simp [quitAfter, ih, hq]

theorem afterRun_quitAfter (env : Env) (r : Int) (fn : Option String)
    (hd : (afterRun env r fn).2 ≠ Termination.undefined) :
    quitAfter (afterRun env r fn).1 = true ∧ Call.xpost_quit ∈ (afterRun env r fn).1 := by
  obtain ⟨k0, k1, k2, k3, k4⟩ := afterRun_cases env r fn
  by_cases h0 : r = 0
  · rw [k0 h0]
    exact ⟨by decide, by decide⟩
  · by_cases hf : fn = none
    · cases hfo : env.fopen_ok with
      | true =>
        cases hb : env.buffer_ok with
        | true =>
          rw [k2 h0 hf hfo hb]
          exact ⟨by decide, by decide⟩
        | false =>
          rw [k3 h0 hf hfo hb] at hd
          exact absurd rfl hd
      | false =>
        rw [k4 h0 hf hfo] at hd
        exact absurd rfl hd
    · rw [k1 h0 hf]
      exact ⟨by decide, by decide⟩

theorem runClient_bracketed (K : XpostH) (env : Env) (msg : Int) (fn : Option String)
    (hok : env.create_ok = true)
    (hd : (runClient K env msg fn).2 ≠ Termination.undefined) :
    bracketed (runClient K env msg fn).1 = true := by
  rw [runClient_of_create_ok K env msg fn hok] at hd ⊢
  have hq := afterRun_quitAfter env env.run_ret fn hd
  have h := quitAfter_append (callsUpToRun K msg fn) _ hq.1 hq.2
  simp only
  rw [bracketed, h]
  simp [callsUpToRun, initBefore]

/-- Whenever the run is reached and `xpost_run` returns a non-zero status, the
client reports "yieldtocaller". -/
theorem main_reports_yield (K : XpostH) (env : Env) (argv : List String)
    (hfd : firstDecider argv.tail = none) (hok : env.create_ok = true)
    (h0 : env.run_ret ≠ 0) :
    Call.printf "executed program. xpost_run returned yieldtocaller\n" ∈ (main K env argv).1 := by
  rw [main_eq, hfd]
  simp only
  rw [runClient_of_create_ok K env _ _ hok]
  apply List.mem_append_right
  simp [afterRun, h0]
  split_ifs <;> simp

/-- C6: whenever `main` calls `xpost_create`, the message verbosity it passes
is the one the usage text describes for the arguments `argv[1..argc-1]`
(`argv[0]` is the program name): `XPOST_OUTPUT_MESSAGE_QUIET` when none of them
is a verbosity option, otherwise the level of the last verbosity option,
wherever file names stand. -/
theorem main_create_verbosity (K : XpostH) (env : Env) (argv : List String)
    (d : String) (ot : Int) (p : OutputTarget) (sp m sz w h : Int)
    (hc : Call.xpost_create d ot p sp m sz w h ∈ (main K env argv).1) :
    m = claimedVerbosity K argv.tail :=
  (main_create_mem K env argv d ot p sp m sz w h hc).2.2.2.2.2.1

/-- C8: whenever `main` calls `xpost_create`: if some argument of
`argv[1..argc-1]` does not begin with a dash, the device is "png", the output
type `XPOST_OUTPUT_FILENAME` and the output target the last such argument; if
there is none, the device is "raster:bgr", the output type
`XPOST_OUTPUT_BUFFEROUT` and the target the address of the client's buffer
pointer; in both cases the call passes `XPOST_SHOWPAGE_RETURN`,
`XPOST_IGNORE_SIZE`, width 0 and height 0. -/
theorem main_create_output (K : XpostH) (env : Env) (argv : List String)
    (d : String) (ot : Int) (p : OutputTarget) (sp m sz w h : Int)
    (hc : Call.xpost_create d ot p sp m sz w h ∈ (main K env argv).1) :
    (∀ f, claimedFileName argv.tail = some f →
        d = "png" ∧ ot = K.XPOST_OUTPUT_FILENAME ∧ p = OutputTarget.filename f) ∧
    (claimedFileName argv.tail = none →
        d = "raster:bgr" ∧ ot = K.XPOST_OUTPUT_BUFFEROUT ∧
        p = OutputTarget.buffer_type_object_addr) ∧
    sp = K.XPOST_SHOWPAGE_RETURN ∧ sz = K.XPOST_IGNORE_SIZE ∧ w = 0 ∧ h = 0 := by
  obtain ⟨_, hd, hot, hp, hsp, _, hsz, hw, hh⟩ := main_create_mem K env argv d ot p sp m sz w h hc
  refine ⟨?_, ?_, hsp, hsz, hw, hh⟩
  · intro f hf
    rw [hf] at hd hot hp
    exact ⟨hd, hot, hp⟩
  · intro hf
    rw [hf] at hd hot hp
    exact ⟨hd, hot, hp⟩

/-- C7: the first argument of `argv[1..argc-1]` that begins with a dash and is
not a verbosity option decides: `main` returns `EXIT_SUCCESS` when it is one of
`-h`, `--help`, `-V`, `--version`, `-L`, `--license` and `EXIT_FAILURE` when it
is anything else, and in both cases no call of `xpost_init`, `xpost_create`,
`xpost_run` (or `xpost_destroy`) is made, whatever the other arguments are. -/
theorem main_first_decider (K : XpostH) (env : Env) (argv : List String) (a : String)
    (hd : firstDecider argv.tail = some a) :
    (isInfoOption a = true → (main K env argv).2 = Termination.returned EXIT_SUCCESS) ∧
    (isInfoOption a = false → (main K env argv).2 = Termination.returned EXIT_FAILURE) ∧
    (∀ c ∈ (main K env argv).1, c ≠ Call.xpost_init ∧ c.needsInit = false) := by
  rw [main_eq, hd]
  refine ⟨?_, ?_, ?_⟩
  · intro h; simp [h]
  · intro h; simp [h]
  · intro c hc
    rcases deciderCalls_mem _ _ _ _ hc with h1 | ⟨s, h1⟩ <;> subst h1 <;> exact ⟨by simp, rfl⟩

/-- On every path, no `xpost_create`, `xpost_run` or `xpost_destroy` call
precedes `xpost_init`. -/
theorem main_initBefore (K : XpostH) (env : Env) (argv : List String) :
    initBefore (main K env argv).1 = true := by
  rw [main_eq]
  cases hfd : firstDecider argv.tail with
  | some a =>
    have h : ∀ l : List Call, (∀ c ∈ l, c = Call.xpost_version_get ∨ ∃ s, c = Call.printf s) →
        initBefore l = true := by
      intro l
      induction l with
      | nil => intro _; rfl
      | cons x t ih =>
        intro hl
        have hx := hl x (List.mem_cons_self _ _)
        have ht := ih (fun c hc => hl c (List.mem_cons_of_mem _ hc))
        rcases hx with hx | ⟨s, hx⟩ <;> subst hx <;> simp [initBefore, ht, Call.needsInit]
    exact h _ (fun c hc => deciderCalls_mem _ _ _ _ hc)
  | none =>
    simp only
    rw [runClient_calls]
    simp [initBefore]

/-- When `xpost_create` succeeds and the process does not run into the
undefined behaviour of the PPM dump (a failed `fopen`, an invalid buffer), the
calls of `main` are bracketed by `xpost_init` and `xpost_quit`. -/
theorem main_bracketed_of_create_ok (K : XpostH) (env : Env) (argv : List String)
    (hok : env.create_ok = true) (hd : (main K env argv).2 ≠ Termination.undefined) :
    bracketed (main K env argv).1 = true := by
  have hi := main_initBefore K env argv
  rw [main_eq] at hi hd ⊢
  cases hfd : firstDecider argv.tail with
  | some a =>
    rw [hfd] at hi
    have hn : (deciderCalls env (argv.headD "") a).any Call.isCreate = false := by
      rw [List.any_eq_false]
      intro c hc
      rcases deciderCalls_mem _ _ _ _ hc with h1 | ⟨s, h1⟩ <;> subst h1 <;> simp [Call.isCreate]
    rw [bracketed, hi, hn]
    rfl
  | none =>
    rw [hfd] at hd
    exact runClient_bracketed K env _ _ hok hd

/-- Whenever the option loop runs to its end and `xpost_create` returns NULL,
the process ends by `exit(0)` and the calls of `main` are not bracketed:
`xpost_quit` does not follow `xpost_create`. -/
theorem main_unbracketed_of_create_failure (K : XpostH) (env : Env) (argv : List String)
    (hfd : firstDecider argv.tail = none) (hok : env.create_ok = false) :
    bracketed (main K env argv).1 = false ∧ (main K env argv).2 = Termination.exited 0 := by
  constructor
  · rw [main_eq, hfd]
    simp only
    rw [runClient_calls, hok]
    rfl
  · rw [main_eq, hfd]
    simp [runClient, hok]

/-- C5: evaluation of `main` when `xpost_create` returns NULL (no arguments
given): the calls are `xpost_init`, `xpost_create`, the message on stderr, and
the process ends by `exit(0)`; `xpost_quit` is never called, so the sequence of
calls is not bracketed. -/
theorem main_create_failure_skips_quit (K : XpostH) :
    main K ⟨0, 0, 0, false, 0, true, true⟩ ["xpost_client"] =
      ([Call.xpost_init,
        Call.xpost_create "raster:bgr" K.XPOST_OUTPUT_BUFFEROUT
          OutputTarget.buffer_type_object_addr K.XPOST_SHOWPAGE_RETURN
          K.XPOST_OUTPUT_MESSAGE_QUIET K.XPOST_IGNORE_SIZE 0 0,
        Call.fprintf_stderr "unable to create interpreter context"],
       Termination.exited 0) ∧
    bracketed (main K ⟨0, 0, 0, false, 0, true, true⟩ ["xpost_client"]).1 = false := by
  constructor <;> rfl

/-- Witness of C6: `-v`, a file name, then `-t`: the level passed is tracing. -/
theorem main_create_verbosity_witness :
    Call.xpost_create "png" 3 (OutputTarget.filename "out.png") 5 2 6 0 0 ∈
        (main sampleH sampleEnv ["xpost_client", "-v", "out.png", "-t"]).1 ∧
      (2 : Int) = claimedVerbosity sampleH ["-v", "out.png", "-t"] :=
  ⟨by decide,
   main_create_verbosity sampleH sampleEnv ["xpost_client", "-v", "out.png", "-t"]
     "png" 3 (OutputTarget.filename "out.png") 5 2 6 0 0 (by decide)⟩

/-- Witness of C8: with two file names, `main` calls `xpost_create` for the
"png" device with the last file name as output target. -/
theorem main_create_output_witness :
    Call.xpost_create "png" 3 (OutputTarget.filename "b.png") 5 1 6 0 0 ∈
        (main sampleH sampleEnv ["xpost_client", "a.png", "-v", "b.png"]).1 ∧
      claimedFileName ["a.png", "-v", "b.png"] = some "b.png" ∧
      ("png" = "png" ∧ (3 : Int) = sampleH.XPOST_OUTPUT_FILENAME ∧
        OutputTarget.filename "b.png" = OutputTarget.filename "b.png") :=
  ⟨by decide, by decide,
   (main_create_output sampleH sampleEnv ["xpost_client", "a.png", "-v", "b.png"]
     "png" 3 (OutputTarget.filename "b.png") 5 1 6 0 0 (by decide)).1 "b.png" (by decide)⟩

/-- Witness of C7: a lone dash after `-v` is an unknown option; `main` returns
`EXIT_FAILURE` although `--help` follows. -/
theorem main_first_decider_witness :
    firstDecider ["-v", "-", "--help"] = some "-" ∧ isInfoOption "-" = false ∧
      (main sampleH sampleEnv ["xpost_client", "-v", "-", "--help"]).2 =
        Termination.returned EXIT_FAILURE :=
  ⟨by decide, by decide,
   (main_first_decider sampleH sampleEnv ["xpost_client", "-v", "-", "--help"] "-"
     (by decide)).2.1 (by decide)⟩

end XpostClient

namespace XpostItp

theorem findFree_none_of_all_used (n : Nat) (used : Fin n → Bool) (h : ∀ i, used i = true) :
    findFree n used = none := by
  unfold findFree
  rw [List.find?_eq_none]
  intro i _
  simp [h i]

theorem findFree_isSome_of_free (n : Nat) (used : Fin n → Bool) (i : Fin n)
    (h : used i = false) : (findFree n used).isSome = true := by
  unfold findFree
  rw [List.find?_isSome]
  exact ⟨i, List.mem_finRange i, by simp [h]⟩

theorem nextltab_ok (r r1 : itp) (p : MfilePtr) (h : nextltab r = (Except.ok p, r1)) :
    (∃ i, p = MfilePtr.ltab i) ∧ r1.ctab = r.ctab ∧ r1.cid = r.cid := by
  unfold nextltab at h
  cases hf : findFree MAXMFILE (fun i => (r.ltab i).inuse) with
  | none => rw [hf] at h; simp at h
  | some i =>
    rw [hf] at h
    simp only [Prod.mk.injEq, Except.ok.injEq] at h
    obtain ⟨h1, h2⟩ := h
    subst h2
    exact ⟨⟨i, h1.symm⟩, rfl, rfl⟩

theorem nextgtab_ok (r r1 : itp) (p : MfilePtr) (h : nextgtab r = (Except.ok p, r1)) :
    (∃ i, p = MfilePtr.gtab i) ∧ r1.ctab = r.ctab ∧ r1.cid = r.cid := by
  unfold nextgtab at h
  cases hf : findFree MAXMFILE (fun i => (r.gtab i).inuse) with
  | none => rw [hf] at h; simp at h
  | some i =>
    rw [hf] at h
    simp only [Prod.mk.injEq, Except.ok.injEq] at h
    obtain ⟨h1, h2⟩ := h
    subst h2
    exact ⟨⟨i, h1.symm⟩, rfl, rfl⟩

theorem initcontext_bound (id : Nat) (i j : Fin MAXMFILE) :
    (initcontext id (MfilePtr.ltab i) (MfilePtr.gtab j)).bound = true ∧
      (initcontext id (MfilePtr.ltab i) (MfilePtr.gtab j)).live = true :=
  ⟨rfl, rfl⟩

/-- Every context the registry creates is bound to its banks: its `lo` is a
slot of `ltab`, its `gl` a slot of `gtab`; the other slots of `ctab` are left
as they were. -/
theorem createContext_bound (r r' : itp) (slot : Fin MAXCONTEXT)
    (h : createContext r = (Except.ok slot, r')) :
    (r'.ctab slot).bound = true ∧ (r'.ctab slot).live = true ∧
      ∀ i, i ≠ slot → r'.ctab i = r.ctab i := by
  unfold createContext at h
  cases hf : findFree MAXCONTEXT (fun i => (r.ctab i).live) with
  | none => rw [hf] at h; simp at h
  | some s =>
    rw [hf] at h
    simp only at h
    cases hl : nextltab r with
    | mk res r1 =>
      rw [hl] at h
      cases res with
      | error e => simp at h
      | ok lo =>
        obtain ⟨⟨i, hi⟩, hc1, _⟩ := nextltab_ok r r1 lo hl
        simp only at h
        cases hg : activeGlobal r1 with
        | some g =>
          rw [hg] at h
          simp only [Prod.mk.injEq, Except.ok.injEq] at h
          obtain ⟨h1, h2⟩ := h
          subst h1 h2 hi
          refine ⟨?_, ?_, ?_⟩
          · simp [Function.update_same, initcontext_bound]
          · simp [Function.update_same, initcontext_bound]
          · intro k hk
            simp [Function.update_noteq hk, hc1]
        | none =>
          rw [hg] at h
          simp only at h
          cases hn : nextgtab r1 with
          | mk res2 r2 =>
            rw [hn] at h
            cases res2 with
            | error e => simp at h
            | ok gl =>
              obtain ⟨⟨j, hj⟩, hc2, _⟩ := nextgtab_ok r1 r2 gl hn
              simp only [Prod.mk.injEq, Except.ok.injEq] at h
              obtain ⟨h1, h2⟩ := h
              subst h1 h2 hi hj
              refine ⟨?_, ?_, ?_⟩
              · simp [Function.update_same, initcontext_bound]
              · simp [Function.update_same, initcontext_bound]
              · intro k hk
                simp [Function.update_noteq hk, hc1, hc2]

/-- A failed creation leaves the registry as it was. -/
theorem createContext_error (r : itp) (e : Error) (r' : itp)
    (h : createContext r = (Except.error e, r')) : r' = r := by
  unfold createContext at h
  cases hf : findFree MAXCONTEXT (fun i => (r.ctab i).live) with
  | none => rw [hf] at h; simp at h; exact h.2.symm
  | some s =>
    rw [hf] at h
    simp only at h
    cases hl : nextltab r with
    | mk res r1 =>
      rw [hl] at h
      cases res with
      | error e1 => simp at h; exact h.2.symm
      | ok lo =>
        simp only at h
        cases hg : activeGlobal r1 with
        | some g => rw [hg] at h; simp at h
        | none =>
          rw [hg] at h
          simp only at h
          cases hn : nextgtab r1 with
          | mk res2 r2 =>
            rw [hn] at h
            cases res2 with
            | error e2 => simp at h; exact h.2.symm
            | ok gl => simp at h

/-- Context creation keeps every live context of the registry bound. -/
theorem createContext_allBound (r : itp) (h : allBound r) : allBound (createContext r).2 := by
  cases hc : createContext r with
  | mk res r' =>
    cases res with
    | error e =>
      rw [createContext_error r e r' hc]
      exact h
    | ok slot =>
      obtain ⟨h1, _, h3⟩ := createContext_bound r r' slot hc
      intro i hi
      by_cases hs : i = slot
      · rw [hs]; exact h1
      · simp only at hi ⊢
        rw [h3 i hs] at hi ⊢
        exact h i hi

/-- In every registry reached from the empty one by context creations, every
live context is bound to its banks. -/
theorem createMany_allBound : ∀ (n : Nat) (r : itp), allBound r → allBound (createMany n r) := by
  intro n
  induction n with
  | zero => intro r h; exact h
  | succ n ih => intro r h; exact ih _ (createContext_allBound r h)

theorem inititp_allBound : allBound inititp := by
  intro i hi
  cases hi

/-- A free slot of `ctab`, whose two pointers are NULL, is not a bound context:
there `lo` and `gl` coincide, and the pointer `bank` returns for a global
object equals `lo` as well. -/
theorem bank_free_slot (i : Fin MAXCONTEXT) :
    (inititp.ctab i).live = false ∧ (inititp.ctab i).bound = false ∧
      bank (inititp.ctab i) { type := 0, vm := VmMode.GLOBAL, payload := 0 } =
        (inititp.ctab i).lo :=
  ⟨rfl, rfl, rfl⟩

theorem nextltab_exhausted (r : itp) (h : ∀ i, (r.ltab i).inuse = true) :
    nextltab r = (Except.error Error.AllocationExhausted, r) := by
  unfold nextltab
  rw [findFree_none_of_all_used _ _ h]

theorem nextgtab_exhausted (r : itp) (h : ∀ i, (r.gtab i).inuse = true) :
    nextgtab r = (Except.error Error.AllocationExhausted, r) := by
  unfold nextgtab
  rw [findFree_none_of_all_used _ _ h]

theorem createContext_exhausted (r : itp) (h : ∀ i, (r.ctab i).live = true) :
    createContext r = (Except.error Error.AllocationExhausted, r) := by
  unfold createContext
  rw [findFree_none_of_all_used _ _ h]

/-- While a slot of `ltab` is free, `nextltab` succeeds. -/
theorem nextltab_ok_of_free (r : itp) (i : Fin MAXMFILE) (h : (r.ltab i).inuse = false) :
    ∃ j, (nextltab r).1 = Except.ok (MfilePtr.ltab j) := by
  unfold nextltab
  have hs := findFree_isSome_of_free MAXMFILE (fun i => (r.ltab i).inuse) i h
  cases hf : findFree MAXMFILE (fun i => (r.ltab i).inuse) with
  | none => rw [hf] at hs; cases hs
  | some j => exact ⟨j, rfl⟩

/-- Starting from the empty registry, each of the first ten context creations
succeeds and takes the next slot of `ctab`. -/
theorem createContext_ok_below_capacity :
    ∀ n : Fin MAXCONTEXT, (createContext (createMany n inititp)).1 = Except.ok n := by
  intro n
  fin_cases n <;> rfl

/-- C2: the registry has capacity `MAXCONTEXT = 10` contexts and
`MAXMFILE = 10` banks per table; when all ten context slots are live a request
for a new context fails with `AllocationExhausted`, when all ten slots of
`ltab` (of `gtab`) are in use `nextltab` (`nextgtab`) fails with
`AllocationExhausted`, and in each case the registry after the call, with all
its contexts and banks, is the registry before it. -/
theorem registry_capacity_exhausted (r : itp) :
    MAXCONTEXT = 10 ∧ MAXMFILE = 10 ∧
    ((∀ i : Fin MAXCONTEXT, (r.ctab i).live = true) →
      createContext r = (Except.error Error.AllocationExhausted, r)) ∧
    ((∀ i : Fin MAXMFILE, (r.ltab i).inuse = true) →
      nextltab r = (Except.error Error.AllocationExhausted, r)) ∧
    ((∀ i : Fin MAXMFILE, (r.gtab i).inuse = true) →
      nextgtab r = (Except.error Error.AllocationExhausted, r)) :=
  ⟨rfl, rfl, createContext_exhausted r, nextltab_exhausted r, nextgtab_exhausted r⟩

/-- Witness of C2: after ten context creations and with all global banks
reserved, every table is full, and an eleventh creation and both bank
reservations fail without changing the registry. -/
theorem registry_capacity_exhausted_witness :
    (∀ i : Fin MAXCONTEXT, (fullRegistry.ctab i).live = true) ∧
    (∀ i : Fin MAXMFILE, (fullRegistry.ltab i).inuse = true) ∧
    (∀ i : Fin MAXMFILE, (fullRegistry.gtab i).inuse = true) ∧
    createContext fullRegistry = (Except.error Error.AllocationExhausted, fullRegistry) ∧
    nextltab fullRegistry = (Except.error Error.AllocationExhausted, fullRegistry) ∧
    nextgtab fullRegistry = (Except.error Error.AllocationExhausted, fullRegistry) :=
  ⟨by decide, by decide, by decide,
   (registry_capacity_exhausted fullRegistry).2.2.1 (by decide),
   (registry_capacity_exhausted fullRegistry).2.2.2.1 (by decide),
   (registry_capacity_exhausted fullRegistry).2.2.2.2 (by decide)⟩

end XpostItp

namespace XpostEval

theorem loop_of_steps (native : Native) :
    ∀ (k : Nat) (c c' : Context), steps native k c = some c' →
      ∀ f, loop native (k + f) c = loop native f c' := by
  intro k
  induction k with
  | zero =>
    intro c c' h f
    simp only [steps, Option.some.injEq] at h
    rw [Nat.zero_add, h]
  | succ k ih =>
    intro c c' h f
    rw [Nat.succ_add]
    simp only [steps] at h
    simp only [loop]
    cases hs : step native c with
    | next c1 =>
      rw [hs] at h
      exact ih c1 c' h f
    | stop s c1 =>
      rw [hs] at h
      cases h

theorem step_yieldmarker (native : Native) (c : Context) (post : List Object)
    (hes : c.es = Object.yieldmarker :: post) (hq : c.quit = false) :
    step native c =
      Step.stop RunStatus.YieldedToCaller
        { c with es := post, currentobject := some Object.yieldmarker,
                 state := State.SUSPENDED_AT_YIELD } := by
  simp [step, hq, hes]

theorem step_isShowpage (native : Native) (c : Context) (sp : Object) (post : List Object)
    (hes : c.es = sp :: post) (hq : c.quit = false) (hsp : IsShowpage c.ds sp) :
    step native c =
      Step.next { c with es := Object.yieldmarker :: post, currentobject := some sp } := by
  cases sp with
  | literal v => cases hsp
  | name n =>
    have hr : resolve c.ds n = some (Object.operator Operator.showpage) := hsp
    simp [step, hq, hes, hr, execute, invoke]
  | operator op =>
    cases op with
    | showpage => simp [step, hq, hes, execute, invoke]
    | quit => cases hsp
    | other id => cases hsp
  | proc body => cases hsp
  | yieldmarker => cases hsp

theorem loop_isShowpage (native : Native) (c : Context) (sp : Object) (post : List Object)
    (hes : c.es = sp :: post) (hq : c.quit = false) (hsp : IsShowpage c.ds sp) (f : Nat) :
    loop native (f + 2) c =
      some (RunStatus.YieldedToCaller,
        { c with es := post, currentobject := some Object.yieldmarker,
                 state := State.SUSPENDED_AT_YIELD }) := by
  simp only [loop]
  rw [step_isShowpage native c sp post hes hq hsp]
  simp only
  rw [step_yieldmarker native
    { c with es := Object.yieldmarker :: post, currentobject := some sp } post rfl hq]

theorem loop_exhausted (native : Native) (c : Context) (hes : c.es = []) (hq : c.quit = false)
    (f : Nat) : loop native (f + 1) c = some (RunStatus.Exhausted, c) := by
  simp [loop, step, hes, hq]

theorem step_inert (native : Native) (c : Context) (id : Nat) (hi : Inert native id) :
    ∃ c', execute native (Operator.other id) c = Step.next c' ∧ c'.es = c.es ∧ c'.ds = c.ds ∧
      c'.quit = c.quit := by
  obtain ⟨c', h1, h2, h3, h4⟩ := hi c
  exact ⟨c', by simp [execute, invoke, h1], h2, h3, h4⟩

theorem step_plain (native : Native) (c : Context) (o : Object) (rest : List Object)
    (hes : c.es = o :: rest) (hq : c.quit = false) (hp : Plain native c.ds o) :
    ∃ c', step native c = Step.next c' ∧ c'.es = rest ∧ c'.ds = c.ds ∧ c'.quit = false := by
  cases o with
  | literal v =>
    exact ⟨{ c with es := rest, currentobject := some (Object.literal v),
                    os := Object.literal v :: c.os }, by simp [step, hq, hes], rfl, rfl, hq⟩
  | name n =>
    simp only [Plain] at hp
    cases hr : resolve c.ds n with
    | none => rw [hr] at hp; cases hp
    | some v =>
      rw [hr] at hp
      cases v with
      | literal w =>
        exact ⟨{ c with es := rest, currentobject := some (Object.name n),
                        os := Object.literal w :: c.os }, by simp [step, hq, hes, hr], rfl, rfl, hq⟩
      | name m => cases hp
      | operator op =>
        cases op with
        | showpage => cases hp
        | quit => cases hp
        | other id =>
          obtain ⟨c', h1, h2, h3, h4⟩ :=
            step_inert native { c with es := rest, currentobject := some (Object.name n) } id hp
          have hstep : step native c =
              execute native (Operator.other id)
                { c with es := rest, currentobject := some (Object.name n) } := by
            simp [step, hq, hes, hr]
          exact ⟨c', hstep.trans h1, h2, h3, h4.trans hq⟩
      | proc body => cases hp
      | yieldmarker => cases hp
  | operator op =>
    cases op with
    | showpage => cases hp
    | quit => cases hp
    | other id =>
      obtain ⟨c', h1, h2, h3, h4⟩ :=
        step_inert native
          { c with es := rest, currentobject := some (Object.operator (Operator.other id)) } id hp
      have hstep : step native c =
          execute native (Operator.other id)
            { c with es := rest,
                     currentobject := some (Object.operator (Operator.other id)) } := by
        simp [step, hq, hes]
      exact ⟨c', hstep.trans h1, h2, h3, h4.trans hq⟩
  | proc body => cases hp
  | yieldmarker => cases hp

theorem steps_plain (native : Native) :
    ∀ (pre : List Object) (c : Context) (rest : List Object),
      (∀ o ∈ pre, Plain native c.ds o) → c.quit = false → c.es = pre ++ rest →
      ∃ cy, steps native pre.length c = some cy ∧ cy.es = rest ∧ cy.ds = c.ds ∧
        cy.quit = false := by
  intro pre
  induction pre with
  | nil =>
    intro c rest _ hq hes
    exact ⟨c, rfl, by simpa using hes, rfl, hq⟩
  | cons o t ih =>
    intro c rest hl hq hes
    obtain ⟨c', h1, h2, h3, h4⟩ :=
      step_plain native c o (t ++ rest) hes hq (hl o (List.mem_cons_self _ _))
    obtain ⟨cy, k1, k2, k3, k4⟩ := ih c' rest
      (fun x hx => by rw [h3]; exact hl x (List.mem_cons_of_mem _ hx)) h4 h2
    refine ⟨cy, ?_, k2, k3.trans h3, k4⟩
    simp only [List.length_cons, steps, h1]
    exact k1

/-- The first run stops at showpage and the second run drains what is left. -/
theorem run_plain_showpage (native : Native) (c : Context) (pre post : List Object)
    (sp : Object) (hes : c.es = []) (hq : c.quit = false) (hsp : IsShowpage c.ds sp)
    (hpre : ∀ o ∈ pre, Plain native c.ds o) (hpost : ∀ o ∈ post, Plain native c.ds o) :
    ∃ c1 c2,
      (∀ fuel, pre.length + 2 ≤ fuel →
        run native fuel c (pre ++ sp :: post) = some (RunStatus.YieldedToCaller, c1)) ∧
      c1.es = post ∧
      (∀ fuel, post.length + 1 ≤ fuel →
        run native fuel c1 [] = some (RunStatus.Exhausted, c2)) ∧
      c2.es = [] := by
  obtain ⟨cy, h1, h2, h3, h4⟩ :=
    steps_plain native pre { c with es := pre ++ sp :: post, state := State.RUNNING }
      (sp :: post) hpre hq rfl
  have hsp' : IsShowpage cy.ds sp := by rw [h3]; exact hsp
  obtain ⟨ce, k1, k2, k3, k4⟩ :=
    steps_plain native post
      { cy with es := post, currentobject := some Object.yieldmarker, state := State.RUNNING }
      [] (fun x hx => by
        show Plain native cy.ds x
        rw [h3]; exact hpost x hx) h4 (by simp)
  refine ⟨{ cy with es := post, currentobject := some Object.yieldmarker,
                    state := State.SUSPENDED_AT_YIELD }, ce, ?_, rfl, ?_, k2⟩
  · intro fuel hf
    obtain ⟨f, rfl⟩ := Nat.exists_eq_add_of_le hf
    unfold run
    rw [hes, List.append_nil, Nat.add_assoc, loop_of_steps native pre.length _ cy h1, Nat.add_comm,
      loop_isShowpage native cy sp post h2 h4 hsp']
  · intro fuel hf
    obtain ⟨f, rfl⟩ := Nat.exists_eq_add_of_le hf
    unfold run
    simp only [List.nil_append]
    rw [Nat.add_assoc, loop_of_steps native post.length _ ce k1, Nat.add_comm,
      loop_exhausted native ce k2 k4]

/-- Every object of the body of the client's program takes one iteration and
leaves the rest of the execution stack alone, provided its six graphics
operators do not take part in the control flow. -/
theorem plain_clientProgramBody (native : Native) (hin : ∀ id, id < 6 → Inert native id) :
    ∀ o ∈ clientProgramBody, Plain native clientContext.ds o := by
  have h0 := hin 0 (by decide)
  have h1 := hin 1 (by decide)
  have h2 := hin 2 (by decide)
  have h3 := hin 3 (by decide)
  have h4 := hin 4 (by decide)
  have h5 := hin 5 (by decide)
  simp [clientProgramBody, clientContext, initcontext, Plain, resolve, systemdict, List.lookup,
    h0, h1, h2, h3, h4, h5]

/-- An error before showpage: a name that is not bound makes the first run
fail, with a zero status for the client, and showpage is not reached. -/
theorem undefined_name_before_showpage_fails :
    ∃ c1, run idleNative 3 initcontext [Object.name "fill", showpage] =
        some (RunStatus.Failed, c1) ∧
      c1.errorobject = some XpostItp.Error.UndefinedName ∧ statusCode RunStatus.Failed = 0 :=
  ⟨_, rfl, rfl, rfl⟩

/-- An operator that empties the execution stack before showpage is reached:
the first run returns `Exhausted` and showpage is not executed. -/
theorem clearing_operator_before_showpage_exhausts :
    ∃ c1, run clearingNative 3 initcontext
        [Object.operator (Operator.other 0), showpage, Object.literal (Literal.number 2)] =
        some (RunStatus.Exhausted, c1) :=
  ⟨_, rfl⟩

/-- The client's program seen by the client: whenever the graphics operators do
not take part in the control flow, the run of the client's program yields, and
the client, handed the status of that run, reports "yieldtocaller". -/
theorem client_program_reported_as_yield (K : XpostClient.XpostH) (env : XpostClient.Env)
    (argv : List String) (native : Native) (hin : ∀ id, id < 6 → Inert native id)
    (hfd : XpostClient.firstDecider argv.tail = none) (hok : env.create_ok = true)
    (fuel : Nat) (hf : 25 ≤ fuel) :
    ∃ status c1, run native fuel clientContext clientProgram = some (status, c1) ∧
      status = RunStatus.YieldedToCaller ∧ c1.es = [] ∧
      XpostClient.Call.printf "executed program. xpost_run returned yieldtocaller\n" ∈
        (XpostClient.main K { env with run_ret := statusCode status } argv).1 := by
  obtain ⟨c1, c2, h1, h2, _, _⟩ :=
    run_plain_showpage native clientContext clientProgramBody [] (Object.name "showpage")
      rfl rfl rfl (plain_clientProgramBody native hin) (fun _ h => absurd h (List.not_mem_nil _))
  refine ⟨RunStatus.YieldedToCaller, c1, h1 fuel hf, rfl, h2, ?_⟩
  exact XpostClient.main_reports_yield K
    { env with run_ret := statusCode RunStatus.YieldedToCaller } argv hfd hok
    (by simp [statusCode])

end XpostEval
